import Mathlib

/-!
Verification of the sandbox AI automation pipeline
(`backend/services/sandboxAIService.js`).

The service is embedded shallowly: the persistent store (`message_log`,
`sandbox_ai_processing`, `sandbox_tasks`) becomes an explicit record of
lists, SQL queries become filters/sorts over those lists, and each stage
of the pipeline becomes a pure Lean function threading the store state.
Timestamps are integers (milliseconds).  The no-completion-capability
configuration is modelled (`this.openai = null`), in which
`generateMessageSummary` returns `getMockSummary` and
`generateAiResponse` returns `getMockResponse`; the bookkeeping the
claims are about is independent of which summarizer produced the output.
-/

namespace Ramblaa

/-- Model of JavaScript `String.prototype.includes`: `pat` occurs as a
contiguous substring of `s`. -/
def strIncludes (s pat : String) : Bool :=
  s.data.tails.any (fun t => pat.data.isPrefixOf t)

/-- Model of JavaScript `String.prototype.toLowerCase` (ASCII case fold,
which covers every string the service manipulates). -/
def jsToLower (s : String) : String :=
  ⟨s.data.map Char.toLower⟩

/-- Structured interpretation of one inbound message, the JSON schema
requested from the completion capability and produced by the fallback
(`getMockSummary`). -/
structure Summary where
  language : String
  sentiment : String
  tone : String
  actionRequired : Bool
  actionTitle : String
  category : String
  priority : String
  keyInformation : List String
  suggestedResponse : String
deriving DecidableEq

/-- Embedding of `getMockSummary(messageText)` (source lines 232-278):
keyword rules over the lowercased body, first match wins. -/
def getMockSummary (messageText : String) : Summary :=
  let message := jsToLower messageText
  let picked :=
    if strIncludes message ("key") || strIncludes message ("check in")
        || strIncludes message ("access") then
      (("check-in"), true, ("high"), ("neutral"), ("Help with property access"))
    else if strIncludes message ("wifi") || strIncludes message ("broken")
        || strIncludes message ("fix") then
      (("maintenance"), true, ("medium"), ("neutral"), ("Maintenance request"))
    else if strIncludes message ("noise") || strIncludes message ("complaint")
        || strIncludes message ("problem") then
      (("complaint"), true, ("high"), ("negative"), ("Address guest complaint"))
    else if strIncludes message ("clean") then
      (("cleaning"), true, ("medium"), ("neutral"), ("Cleaning request"))
    else
      (("general"), false, ("medium"), ("neutral"), ("Message received"))
  let category := picked.1
  let actionRequired := picked.2.1
  let priority := picked.2.2.1
  let sentiment := picked.2.2.2.1
  let actionTitle := picked.2.2.2.2
  { language := "en"
    sentiment := sentiment
    tone := if sentiment == ("negative") then "frustrated" else "friendly"
    actionRequired := actionRequired
    actionTitle := actionTitle
    category := category
    priority := priority
    keyInformation := [actionTitle]
    suggestedResponse :=
      if actionRequired then
        "Thank you for letting me know. I\x27ll take care of this right away."
      else
        "Thank you for your message. Is there anything I can help you with?" }

/-- Shape of the responder output (`getMockResponse` / the JSON schema
requested from the completion capability). -/
structure MockResponse where
  message : String
  requiresFollowUp : Bool
  escalationNeeded : Bool
  taskType : String
deriving DecidableEq

/-- Embedding of `getMockResponse(summary)` (source lines 542-573):
switch on `summary.category`. -/
def getMockResponse (summary : Summary) : MockResponse :=
  let base := "Thank you for your message! "
  if summary.category == ("check-in") then
    { message := base ++ "The door code is 1234. You can find detailed check-in instructions in your booking confirmation."
      requiresFollowUp := summary.priority == ("high")
      escalationNeeded := false
      taskType := "none" }
  else if summary.category == ("maintenance") then
    { message := base ++ "I\x27m sorry to hear about this issue. I\x27ll send someone to take a look at it right away."
      requiresFollowUp := summary.priority == ("high")
      escalationNeeded := false
      taskType := "maintenance" }
  else if summary.category == ("cleaning") then
    { message := base ++ "I\x27ll arrange for housekeeping to address this immediately."
      requiresFollowUp := summary.priority == ("high")
      escalationNeeded := false
      taskType := "cleaning" }
  else if summary.category == ("complaint") then
    { message := base ++ "I sincerely apologize for this inconvenience. I\x27m taking immediate action to resolve this issue."
      requiresFollowUp := summary.priority == ("high")
      escalationNeeded := true
      taskType := "none" }
  else
    { message := base ++ "Is there anything specific I can help you with during your stay?"
      requiresFollowUp := summary.priority == ("high")
      escalationNeeded := false
      taskType := "none" }

/-- Row of `message_log` (the columns the pipeline reads or writes;
`sandbox_metadata.generated_from` is modelled as the `generated_from`
field, `none` for inbound messages). -/
structure MessageRow where
  message_uuid : String
  timestamp : Int
  from_number : String
  to_number : String
  message_body : String
  message_type : String
  requestor_role : String
  is_sandbox : Bool
  sandbox_session_id : String
  generated_from : Option String
deriving DecidableEq

/-- Row of `sandbox_ai_processing`, the idempotency ledger.  The
`input_data`/`output_data` snapshots, model name and timestamps are not
modelled: no claim depends on them. -/
structure ProcessingRow where
  sandbox_session_id : String
  message_uuid : String
  processing_type : String
  processing_status : String
deriving DecidableEq

/-- Row of `sandbox_tasks` (the columns the pipeline writes or reads;
`created_at` is the insertion clock supplied to `createStaffTasks`). -/
structure TaskRow where
  sandbox_session_id : String
  task_uuid : String
  task_type : String
  title : String
  description : String
  assignee_name : String
  assignee_role : String
  status : String
  priority : String
  created_from_message_uuid : String
  created_at : Int
deriving DecidableEq

/-- The persistent store: the three tables the pipeline touches. -/
structure DB where
  message_log : List MessageRow
  sandbox_ai_processing : List ProcessingRow
  sandbox_tasks : List TaskRow
deriving DecidableEq

/-- The `NOT EXISTS` subquery of `processSummarizeMessages` (source
lines 87-93): a `completed` `summarization` record exists for this
session and message. -/
def hasCompletedSummarization (db : DB) (sid uuid : String) : Bool :=
  db.sandbox_ai_processing.any (fun r =>
    r.sandbox_session_id == sid && r.message_uuid == uuid &&
    r.processing_type == ("summarization") && r.processing_status == ("completed"))

/-- The `messagesQuery` of `processSummarizeMessages` (source lines
73-95): sandbox inbound messages of the session lacking a completed
summarization record, ordered by timestamp ascending. -/
def unprocessedInbound (db : DB) (sid : String) : List MessageRow :=
  List.insertionSort (fun a b => a.timestamp ≤ b.timestamp)
    (db.message_log.filter (fun m =>
      m.sandbox_session_id == sid && m.is_sandbox && m.message_type == ("Inbound") &&
      !(hasCompletedSummarization db sid m.message_uuid)))

/-- The `historyQuery` of `processSummarizeMessages` (source lines
103-110): messages of the session strictly earlier than `ts`, ordered
by timestamp descending, limited to 10. -/
def historyQuery (db : DB) (sid : String) (ts : Int) : List MessageRow :=
  (List.insertionSort (fun a b => b.timestamp ≤ a.timestamp)
    (db.message_log.filter (fun m =>
      m.sandbox_session_id == sid && m.timestamp < ts))).take 10

/-- One entry of `conversationHistory` as built by
`buildMessageContext`. -/
structure HistoryEntry where
  text : String
  type : String
  timestamp : Int
deriving DecidableEq

/-- Embedding of `buildMessageContext(message, history)` restricted to
its `conversationHistory` part (source lines 171-175): the fetched
history rows are mapped to `{text, type, timestamp}` triples in fetch
order — the source performs no reversal.  The `property`/`guest` parts
of the context are not modelled: no claim depends on them. -/
def buildMessageContext (history : List MessageRow) : List HistoryEntry :=
  history.map (fun h =>
    { text := h.message_body, type := h.message_type, timestamp := h.timestamp })

/-- Conversation context the summarize loop builds for message `m`:
history fetch followed by `buildMessageContext`.  The summarize loop
never modifies `message_log`, so the context of each processed message
equals this value on the initial store. -/
def contextFor (db : DB) (sid : String) (m : MessageRow) : List HistoryEntry :=
  buildMessageContext (historyQuery db sid m.timestamp)

/-- The `completed` `summarization` record inserted by
`processSummarizeMessages` (source lines 121-134). -/
def mkSummRecord (sid : String) (m : MessageRow) : ProcessingRow :=
  { sandbox_session_id := sid
    message_uuid := m.message_uuid
    processing_type := "summarization"
    processing_status := "completed" }

/-- Element of the list `processSummarizeMessages` returns (source
lines 136-140).  Note `original_message` holds the message *body*. -/
structure SummaryEntry where
  message_uuid : String
  original_message : String
  summary : Summary
deriving DecidableEq

/-- The summary entry pushed for message `m` (source lines 136-140); in
the no-capability configuration `generateMessageSummary` returns
`getMockSummary(message.message_body)`. -/
def mkSummEntry (m : MessageRow) : SummaryEntry :=
  { message_uuid := m.message_uuid
    original_message := m.message_body
    summary := getMockSummary m.message_body }

/-- Body of the `for` loop of `processSummarizeMessages` (source lines
101-141): fetch history, build context, summarize, insert the
`completed` record, push the summary entry.  The fetched history and
the context built from it flow only into the `input_data`
snapshot of the inserted record, which is not modelled; `contextFor`
captures that context for the ordering claims (the loop never modifies
`message_log`). -/
def summStep (sid : String) (acc : DB × List SummaryEntry) (m : MessageRow) :
    DB × List SummaryEntry :=
  let db := acc.1
  let summary := getMockSummary m.message_body
  let db' := { db with
    sandbox_ai_processing := db.sandbox_ai_processing ++ [mkSummRecord sid m] }
  let entry : SummaryEntry :=
    { message_uuid := m.message_uuid
      original_message := m.message_body
      summary := summary }
  (db', acc.2 ++ [entry])

/-- Embedding of `processSummarizeMessages(sessionId)` (source lines
68-147): the work set is queried once, then each message is processed
in ascending-timestamp order. -/
def processSummarizeMessages (sid : String) (db : DB) : DB × List SummaryEntry :=
  (unprocessedInbound db sid).foldl (summStep sid) (db, [])

/-- Element of the list `buildAiResponseFromSummaries` returns (source
lines 354-358). -/
structure RespEntry where
  message_uuid : String
  response : String
  metadata : MockResponse
deriving DecidableEq

/-- The outbound message row inserted for an actionable summary (source
lines 315-336).  `from_number` is the literal `System`.  The source
computes the recipient as `summary.original_message.from_number ||
Guest`, but `summary.original_message` is the message *body string*
(assigned at source line 138), so the field access yields `undefined`
and the fallback makes the recipient the literal `Guest` on every path.
The insert timestamp (`NOW()`) is `now`. -/
def mkOutboundRow (sid : String) (now : Int) (uuid : String) (s : SummaryEntry)
    (resp : MockResponse) : MessageRow :=
  { message_uuid := uuid
    timestamp := now
    from_number := "System"
    to_number := "Guest"
    message_body := resp.message
    message_type := "Outbound"
    requestor_role := "ai"
    is_sandbox := true
    sandbox_session_id := sid
    generated_from := some s.message_uuid }

/-- The `completed` `response_generation` record inserted for an
actionable summary, keyed by the new outbound message identity (source
lines 339-352). -/
def mkRespRecord (sid : String) (uuid : String) : ProcessingRow :=
  { sandbox_session_id := sid
    message_uuid := uuid
    processing_type := "response_generation"
    processing_status := "completed" }

/-- Loop of `buildAiResponseFromSummaries` (source lines 289-359) in
the no-capability configuration (`generateAiResponse` returns
`getMockResponse(summary.summary)`; the property data it fetches is
unused by the fallback and not modelled).  `newUuid k` models the
fresh `RESP_...` identifier (clock plus randomness, source line 313)
generated for the k-th actionable summary.  Summaries with
`actionRequired` false are skipped. -/
def respondLoop (sid : String) (now : Int) (newUuid : Nat → String) :
    Nat → DB → List RespEntry → List SummaryEntry → DB × List RespEntry
  | _, db, acc, [] => (db, acc)
  | k, db, acc, s :: rest =>
    if s.summary.actionRequired then
      let response := getMockResponse s.summary
      let uuid := newUuid k
      let db' := { db with
        message_log := db.message_log ++ [mkOutboundRow sid now uuid s response]
        sandbox_ai_processing :=
          db.sandbox_ai_processing ++ [mkRespRecord sid uuid] }
      respondLoop sid now newUuid (k + 1) db'
        (acc ++ [{ message_uuid := uuid, response := response.message,
                   metadata := response }]) rest
    else
      respondLoop sid now newUuid k db acc rest

/-- Embedding of `buildAiResponseFromSummaries(sessionId, summaries)`
(source lines 283-365), on the run where every persistence operation
succeeds. -/
def buildAiResponseFromSummaries (sid : String) (now : Int)
    (newUuid : Nat → String) (db : DB) (summaries : List SummaryEntry) :
    DB × List RespEntry :=
  respondLoop sid now newUuid 0 db [] summaries

/-- Loop of `buildAiResponseFromSummaries` with persistence failures
modelled: `insertOk k` says whether persisting the k-th actionable
summary succeeds.  The source wraps the whole loop in a single
`try ... finally client.release()` with no `catch`, so a rejected
insert propagates out of the loop immediately: the error value carries
the store as it stood when the failure hit, and no later summary is
touched. -/
def respondLoopE (sid : String) (now : Int) (newUuid : Nat → String)
    (insertOk : Nat → Bool) :
    Nat → DB → List RespEntry → List SummaryEntry →
    Except (String × DB) (DB × List RespEntry)
  | _, db, acc, [] => Except.ok (db, acc)
  | k, db, acc, s :: rest =>
    if s.summary.actionRequired then
      if insertOk k then
        let response := getMockResponse s.summary
        let uuid := newUuid k
        let db' := { db with
          message_log := db.message_log ++ [mkOutboundRow sid now uuid s response]
          sandbox_ai_processing :=
            db.sandbox_ai_processing ++ [mkRespRecord sid uuid] }
        respondLoopE sid now newUuid insertOk (k + 1) db'
          (acc ++ [{ message_uuid := uuid, response := response.message,
                     metadata := response }]) rest
      else
        Except.error (("persistence error"), db)
    else
      respondLoopE sid now newUuid insertOk k db acc rest

/-- Embedding of `buildAiResponseFromSummaries` with persistence
failures modelled. -/
def buildAiResponseFromSummariesE (sid : String) (now : Int)
    (newUuid : Nat → String) (insertOk : Nat → Bool) (db : DB)
    (summaries : List SummaryEntry) : Except (String × DB) (DB × List RespEntry) :=
  respondLoopE sid now newUuid insertOk 0 db [] summaries

/-- Task type/assignee lookup result of `determineTaskDetails`. -/
structure TaskDetails where
  title : String
  description : String
  type : String
  assignee_name : String
  assignee_role : String
deriving DecidableEq

/-- Embedding of `determineTaskDetails(summary)` (source lines
632-669): fixed lookup from `category`. -/
def determineTaskDetails (summary : Summary) : TaskDetails :=
  let title := if summary.actionTitle == ("") then "Guest Request" else summary.actionTitle
  let description :=
    "Category: " ++ summary.category ++ "\nPriority: " ++ summary.priority ++
    "\nDetails: " ++ String.intercalate (", ") summary.keyInformation
  if summary.category == ("maintenance") then
    { title := title, description := description, type := "maintenance"
      assignee_name := "Maintenance Team", assignee_role := "Maintenance Staff" }
  else if summary.category == ("cleaning") then
    { title := title, description := description, type := "cleaning"
      assignee_name := "Cleaning Team", assignee_role := "Cleaning Staff" }
  else if summary.category == ("complaint") then
    { title := title, description := description, type := "inspection"
      assignee_name := "Property Manager", assignee_role := "Management" }
  else
    { title := title, description := description, type := "general"
      assignee_name := "Support Team", assignee_role := "Support Staff" }

/-- The task-creation gate of `createStaffTasks` (source lines
585-586), exactly as written: `actionRequired` AND membership of
`summary.priority` — not the category — in the literal list. -/
def needsTask (s : Summary) : Bool :=
  s.actionRequired && ([("maintenance"), ("cleaning"), ("urgent")].contains s.priority)

/-- Element of the list `createStaffTasks` returns (source lines
617-620). -/
structure TaskEntry where
  task_uuid : String
  details : TaskDetails
deriving DecidableEq

/-- Loop of `createStaffTasks` (source lines 583-621): for each summary
passing `needsTask`, insert a `pending` task row and push the task
entry.  `newUuid k` models the `TASK_...` identifier of the k-th
created task; `now` is the insert clock for `created_at`. -/
def taskLoop (sid : String) (now : Int) (newUuid : Nat → String) :
    Nat → DB → List TaskEntry → List SummaryEntry → DB × List TaskEntry
  | _, db, acc, [] => (db, acc)
  | k, db, acc, s :: rest =>
    if needsTask s.summary then
      let d := determineTaskDetails s.summary
      let uuid := newUuid k
      let row : TaskRow :=
        { sandbox_session_id := sid
          task_uuid := uuid
          task_type := d.type
          title := d.title
          description := d.description
          assignee_name := d.assignee_name
          assignee_role := d.assignee_role
          status := "pending"
          priority := s.summary.priority
          created_from_message_uuid := s.message_uuid
          created_at := now }
      taskLoop sid now newUuid (k + 1)
        { db with sandbox_tasks := db.sandbox_tasks ++ [row] }
        (acc ++ [{ task_uuid := uuid, details := d }]) rest
    else
      taskLoop sid now newUuid k db acc rest

/-- Embedding of `createStaffTasks(sessionId, summaries)` (source lines
578-627). -/
def createStaffTasks (sid : String) (now : Int) (newUuid : Nat → String)
    (db : DB) (summaries : List SummaryEntry) : DB × List TaskEntry :=
  taskLoop sid now newUuid 0 db [] summaries

/-- A follow-up reminder emitted by `evaluateTaskStatus` (source lines
694-698). -/
structure FollowUp where
  task_uuid : String
  message : String
  type : String
deriving DecidableEq

/-- Model of `Math.round((now - created) / (1000*60*60))` for the
nonnegative ages at which the message is built: floor(x + 1/2) over the
exact rational age in hours. -/
def roundedHours (d : Int) : Int :=
  (2 * d + 3600000) / 7200000

/-- The reminder pushed for a stale pending task (source lines
694-698). -/
def mkReminder (now : Int) (t : TaskRow) : FollowUp :=
  { task_uuid := t.task_uuid
    message := "Following up on " ++ t.title ++ " - this task has been pending for "
      ++ toString (roundedHours (now - t.created_at)) ++ " hours."
    type := "reminder" }

/-- The staleness test of `evaluateTaskStatus` (source lines 691-693):
`hoursSinceCreated > 2 && status === pending`, where
`hoursSinceCreated = (now - created_at) / (1000*60*60)` over exact
arithmetic, i.e. age strictly greater than 7200000 ms. -/
def needsFollowUp (now : Int) (t : TaskRow) : Bool :=
  (decide (7200000 < now - t.created_at)) && t.status == ("pending")

/-- Embedding of `evaluateTaskStatus(sessionId)` (source lines
674-706): fetch the `pending`/`in-progress` tasks of the session
ordered by creation time ascending, and push a reminder for each stale
pending one.  The function only reads the store — it persists
nothing. -/
def evaluateTaskStatus (now : Int) (sid : String) (db : DB) : List FollowUp :=
  let tasks := List.insertionSort (fun a b => a.created_at ≤ b.created_at)
    (db.sandbox_tasks.filter (fun t =>
      t.sandbox_session_id == sid &&
      (t.status == ("pending") || t.status == ("in-progress"))))
  tasks.foldl (fun acc t =>
    if needsFollowUp now t then acc ++ [mkReminder now t] else acc) []

/-- An escalation emitted by `processHostEscalations` (source lines
716-721). -/
structure Escalation where
  message_uuid : String
  reason : String
  summary : Summary
  recommended_action : String
deriving DecidableEq

/-- The escalation pushed for an urgent summary (source lines
716-721). -/
def mkEscalation (s : SummaryEntry) : Escalation :=
  { message_uuid := s.message_uuid
    reason := "Urgent guest request"
    summary := s.summary
    recommended_action := "Immediate host attention required" }

/-- The escalation trigger of `processHostEscalations` (source line
715). -/
def isUrgentSummary (s : SummaryEntry) : Bool :=
  s.summary.priority == ("urgent") || s.summary.sentiment == ("urgent")

/-- Embedding of `processHostEscalations(sessionId, summaries)` (source
lines 711-726): a pure pass over the summaries, no store access. -/
def processHostEscalations (summaries : List SummaryEntry) : List Escalation :=
  summaries.foldl (fun acc s =>
    if isUrgentSummary s then acc ++ [mkEscalation s] else acc) []

/-! Helper lemmas. -/

/-- A push-style loop (`if cond then push`) is `filter` then `map`. -/
lemma foldl_push_eq {α β : Type} (p : α → Bool) (f : α → β) :
    ∀ (l : List α) (acc : List β),
      l.foldl (fun acc t => if p t then acc ++ [f t] else acc) acc
        = acc ++ (l.filter p).map f := by
  intro l
  induction l with
  | nil => intro acc; simp
  | cons a l ih =>
    intro acc
    by_cases hpa : p a = true
    · simp only [List.foldl_cons, if_pos hpa, ih, List.filter_cons_of_pos hpa,
        List.map_cons, List.append_assoc, List.singleton_append]
    · simp only [List.foldl_cons, if_neg hpa, ih,
        List.filter_cons_of_neg (by simpa using hpa)]

/-- In a list where exactly one element satisfies `p`, and a member `t`
satisfies `p`, counting `p && q` counts `q t`. -/
lemma countP_and_of_countP_eq_one {α : Type} (p q : α → Bool) (l : List α)
    (t : α) (ht : t ∈ l) (hpt : p t = true) (h1 : l.countP p = 1) :
    l.countP (fun x => p x && q x) = if q t then 1 else 0 := by
  induction l with
  | nil => cases ht
  | cons a l ih =>
    rw [List.countP_cons] at h1 ⊢
    rcases List.mem_cons.mp ht with rfl | hmem
    · have hl0 : ∀ x ∈ l, p x = false := by simpa [hpt] using h1
      have hz : l.countP (fun x => p x && q x) = 0 := by
        rw [List.countP_eq_zero]
        intro x hx
        simp [hl0 x hx]
      rw [hz, hpt]
      by_cases hq : q t = true <;> simp [hq]
    · by_cases hpa : p a = true
      · have hl0 : ∀ x ∈ l, p x = false := by simpa [hpa] using h1
        exact absurd hpt (by simp [hl0 t hmem])
      · have h1' : l.countP p = 1 := by simpa [hpa] using h1
        have hpq : (p a && q a) = false := by
          simp only [Bool.and_eq_false_iff]
          left
          simpa using hpa
        rw [hpq]
        simpa using ih hmem h1'

/-- In a list where exactly one element satisfies `p`, two members
satisfying `p` coincide. -/
lemma eq_of_countP_eq_one {α : Type} (p : α → Bool) (l : List α) (t x : α)
    (ht : t ∈ l) (hx : x ∈ l) (hpt : p t = true) (hpx : p x = true)
    (h1 : l.countP p = 1) : x = t := by
  induction l with
  | nil => cases ht
  | cons a l ih =>
    rw [List.countP_cons] at h1
    rcases List.mem_cons.mp ht with rfl | htmem
    · rcases List.mem_cons.mp hx with rfl | hxmem
      · rfl
      · have hl0 : ∀ y ∈ l, p y = false := by simpa [hpt] using h1
        exact absurd hpx (by simp [hl0 x hxmem])
    · rcases List.mem_cons.mp hx with rfl | hxmem
      · have hl0 : ∀ y ∈ l, p y = false := by simpa [hpx] using h1
        exact absurd hpt (by simp [hl0 t htmem])
      · by_cases hpa : p a = true
        · have hl0 : ∀ y ∈ l, p y = false := by simpa [hpa] using h1
          exact absurd hpt (by simp [hl0 t htmem])
        · have hp1 : l.countP p = 1 := by simpa [hpa] using h1
          exact ih htmem hxmem hp1

/-- Unfolding of the summarize loop: it appends one `completed`
summarization record and one summary entry per work-set message, and
touches nothing else. -/
lemma summLoop_eq (sid : String) :
    ∀ (msgs : List MessageRow) (db : DB) (acc : List SummaryEntry),
      msgs.foldl (summStep sid) (db, acc) =
        ({ db with sandbox_ai_processing :=
             db.sandbox_ai_processing ++ msgs.map (mkSummRecord sid) },
         acc ++ msgs.map mkSummEntry) := by
  intro msgs
  induction msgs with
  | nil => intro db acc; simp
  | cons m ms ih =>
    intro db acc
    rw [List.foldl_cons]
    show ms.foldl (summStep sid)
        ({ db with sandbox_ai_processing :=
            db.sandbox_ai_processing ++ [mkSummRecord sid m] },
         acc ++ [mkSummEntry m]) = _
    rw [ih]
    simp [List.append_assoc]

/-- Characterization of one summarize run over the initial store. -/
lemma processSummarizeMessages_eq (sid : String) (db : DB) :
    processSummarizeMessages sid db =
      ({ db with sandbox_ai_processing :=
           db.sandbox_ai_processing ++ (unprocessedInbound db sid).map (mkSummRecord sid) },
       (unprocessedInbound db sid).map mkSummEntry) := by
  unfold processSummarizeMessages
  rw [summLoop_eq]
  simp

/-- Count of completed summarization ledger records for a session and
message (the idempotency key of the Summarizer stage). -/
def summarizationCount (db : DB) (sid uuid : String) : Nat :=
  db.sandbox_ai_processing.countP (fun r =>
    r.sandbox_session_id == sid && r.message_uuid == uuid &&
    r.processing_type == ("summarization") && r.processing_status == ("completed"))

/-- An empty store, used by several concrete evaluations. -/
def emptyDB : DB :=
  { message_log := [], sandbox_ai_processing := [], sandbox_tasks := [] }

/-! Claim C1. -/

/-- C1: the claim says every summary with `actionRequired = true` and
category `maintenance` yields a Task.  Evaluating the code at such a
summary (the fallback summary of a wifi message: actionable, category
`maintenance`, priority `medium`) shows `createStaffTasks` creates no
task at all: its gate tests the `priority` field against the literal
list `[maintenance, cleaning, urgent]`, and `medium` is not in it. -/
theorem c1_maintenance_summary_yields_no_task :
    (getMockSummary ("the wifi is broken")).actionRequired = true
    ∧ (getMockSummary ("the wifi is broken")).category = "maintenance"
    ∧ (getMockSummary ("the wifi is broken")).priority = "medium"
    ∧ (createStaffTasks ("s") 0 (fun k => ("T") ++ toString k) emptyDB
        [{ message_uuid := "M1", original_message := "the wifi is broken",
           summary := getMockSummary ("the wifi is broken") }]).2 = []
    ∧ (createStaffTasks ("s") 0 (fun k => ("T") ++ toString k) emptyDB
        [{ message_uuid := "M1", original_message := "the wifi is broken",
           summary := getMockSummary ("the wifi is broken") }]).1.sandbox_tasks = [] := by
  decide

/-! Claim C3. -/

/-- C3 counterexample: on the exact body of the claim the fallback
summarizer returns category `maintenance` with priority `medium`, not
`check-in` with `high` — the body contains none of `key`, `check in`,
`access` (it says `get in`), so the check-in rule never fires. -/
theorem c3_counterexample_not_checkin :
    (getMockSummary ("The wifi is broken and I can\x27t get in, please fix")).category
      = "maintenance"
    ∧ (getMockSummary ("The wifi is broken and I can\x27t get in, please fix")).category
      ≠ "check-in"
    ∧ (getMockSummary ("The wifi is broken and I can\x27t get in, please fix")).priority
      ≠ "high" := by
  decide

/-- C3 (amended): for that body with no completion capability
configured, the fallback classifies category `maintenance`, priority
`medium`, `actionRequired = true`: the `key`/`check in`/`access` rule
does not match the lowercased body, so the `wifi`/`broken`/`fix` rule
(the next in precedence) fires. -/
theorem c3_wifi_body_is_maintenance :
    (getMockSummary ("The wifi is broken and I can\x27t get in, please fix")).category
      = "maintenance"
    ∧ (getMockSummary ("The wifi is broken and I can\x27t get in, please fix")).priority
      = "medium"
    ∧ (getMockSummary ("The wifi is broken and I can\x27t get in, please fix")).actionRequired
      = true
    ∧ strIncludes (jsToLower ("The wifi is broken and I can\x27t get in, please fix")) ("key") = false
    ∧ strIncludes (jsToLower ("The wifi is broken and I can\x27t get in, please fix")) ("check in") = false
    ∧ strIncludes (jsToLower ("The wifi is broken and I can\x27t get in, please fix")) ("access") = false
    ∧ strIncludes (jsToLower ("The wifi is broken and I can\x27t get in, please fix")) ("wifi") = true := by
  decide

/-! Claim C6. -/

/-- C6: the deterministic fallback summarizer and responder are total
Lean functions (they never raise by construction) and populate every
schema field on every input: fixed language, sentiment/tone/category/
priority drawn from the schema enumerations, a nonempty action title
echoed into `keyInformation`, one of the two canned suggested replies;
the responder always returns a message, the `priority === high`
follow-up flag, an escalation flag and a task type from its
enumeration. -/
theorem c6_fallback_totality :
    ∀ (body : String) (s : Summary),
      (getMockSummary body).language = "en"
      ∧ (getMockSummary body).sentiment ∈ [("neutral"), ("negative")]
      ∧ (getMockSummary body).tone ∈ [("friendly"), ("frustrated")]
      ∧ ((getMockSummary body).actionRequired = true ∨ (getMockSummary body).actionRequired = false)
      ∧ (getMockSummary body).actionTitle ∈
          [("Help with property access"), ("Maintenance request"),
           ("Address guest complaint"), ("Cleaning request"), ("Message received")]
      ∧ (getMockSummary body).category ∈
          [("check-in"), ("maintenance"), ("complaint"), ("cleaning"), ("general")]
      ∧ (getMockSummary body).priority ∈ [("medium"), ("high")]
      ∧ (getMockSummary body).keyInformation = [(getMockSummary body).actionTitle]
      ∧ (getMockSummary body).suggestedResponse ∈
          [("Thank you for letting me know. I\x27ll take care of this right away."),
           ("Thank you for your message. Is there anything I can help you with?")]
      ∧ (getMockResponse s).message ≠ ""
      ∧ (getMockResponse s).requiresFollowUp = (s.priority == ("high"))
      ∧ ((getMockResponse s).escalationNeeded = true ∨ (getMockResponse s).escalationNeeded = false)
      ∧ (getMockResponse s).taskType ∈ [("none"), ("maintenance"), ("cleaning")] := by
  intro body s
  simp only [getMockSummary, getMockResponse]
  repeat' split
  all_goals simp_all

/-! Claim C9. -/

/-- C9: a summary whose `priority` or `sentiment` is `urgent` yields
exactly one Escalation, carrying the summary, the fixed reason and the
fixed recommendation string; a summary with neither yields none.  The
uniqueness hypothesis says the summary identity occurs once in the
input list.  `processHostEscalations` is a pure pass over the
summaries: it takes no store argument at all. -/
theorem c9_escalation_trigger (ss : List SummaryEntry) (e : SummaryEntry)
    (hmem : e ∈ ss)
    (huniq : ss.countP (fun x => x.message_uuid == e.message_uuid) = 1) :
    ((e.summary.priority = "urgent" ∨ e.summary.sentiment = "urgent") →
       (processHostEscalations ss).countP (fun x => x.message_uuid == e.message_uuid) = 1
       ∧ ({ message_uuid := e.message_uuid, reason := "Urgent guest request",
            summary := e.summary,
            recommended_action := "Immediate host attention required" } : Escalation)
           ∈ processHostEscalations ss)
    ∧ (e.summary.priority ≠ "urgent" → e.summary.sentiment ≠ "urgent" →
       (processHostEscalations ss).countP (fun x => x.message_uuid == e.message_uuid) = 0) := by
  have hrw : processHostEscalations ss = (ss.filter isUrgentSummary).map mkEscalation := by
    unfold processHostEscalations
    exact (foldl_push_eq isUrgentSummary mkEscalation ss []).trans (by simp)
  have hcount : (processHostEscalations ss).countP (fun x => x.message_uuid == e.message_uuid)
      = if isUrgentSummary e then 1 else 0 := by
    rw [hrw, List.countP_map, List.countP_filter]
    exact countP_and_of_countP_eq_one
      (fun a => (mkEscalation a).message_uuid == e.message_uuid) isUrgentSummary ss e hmem
      (by simp [mkEscalation]) huniq
  constructor
  · intro hurg
    have hu : isUrgentSummary e = true := by
      rcases hurg with h | h <;> simp [isUrgentSummary, h]
    refine ⟨by rw [hcount, hu]; rfl, ?_⟩
    rw [hrw]
    exact List.mem_map_of_mem mkEscalation (List.mem_filter.mpr ⟨hmem, hu⟩)
  · intro h1 h2
    have hu : isUrgentSummary e = false := by
      simp [isUrgentSummary, h1, h2]
    rw [hcount, hu]
    rfl

/-- Fixture for the C9 witness: sentiment `urgent` with priority
`low`. -/
def c9entry : SummaryEntry :=
  { message_uuid := "U1"
    original_message := "emergency"
    summary :=
      { language := "en", sentiment := "urgent", tone := "frustrated"
        actionRequired := true, actionTitle := "Emergency", category := "maintenance"
        priority := "low", keyInformation := [], suggestedResponse := "" } }

/-- Witness for C9 at a concrete input: sentiment `urgent`, priority
`low` yields exactly one escalation. -/
theorem c9_escalation_trigger_witness :
    (processHostEscalations [c9entry]).countP
        (fun x => x.message_uuid == c9entry.message_uuid) = 1
    ∧ ({ message_uuid := c9entry.message_uuid, reason := "Urgent guest request",
         summary := c9entry.summary,
         recommended_action := "Immediate host attention required" } : Escalation)
        ∈ processHostEscalations [c9entry] :=
  (c9_escalation_trigger [c9entry] c9entry (by decide) (by decide)).1
    (Or.inr (by decide))

/-! Claim C10. -/

/-- C10: the fallback summarizer only emits priorities `medium`/`high`
and sentiments `neutral`/`negative` — never `urgent` — so a run in
which every summary came from the fallback path produces no
escalations. -/
theorem c10_fallback_never_escalates :
    (∀ body : String,
        ((getMockSummary body).priority = "medium" ∨ (getMockSummary body).priority = "high")
        ∧ ((getMockSummary body).sentiment = "neutral" ∨ (getMockSummary body).sentiment = "negative"))
    ∧ (∀ ss : List SummaryEntry,
        (∀ e ∈ ss, ∃ body, e.summary = getMockSummary body) →
        processHostEscalations ss = []) := by
  have hfields : ∀ body : String,
      ((getMockSummary body).priority = "medium" ∨ (getMockSummary body).priority = "high")
      ∧ ((getMockSummary body).sentiment = "neutral" ∨ (getMockSummary body).sentiment = "negative") := by
    intro body
    simp only [getMockSummary]
    repeat' split
    all_goals simp_all
  refine ⟨hfields, ?_⟩
  intro ss h
  have hnil : ss.filter isUrgentSummary = [] := by
    rw [List.filter_eq_nil_iff]
    intro e he
    rcases h e he with ⟨body, hb⟩
    have h1 := (hfields body).1
    have h2 := (hfields body).2
    simp only [isUrgentSummary, hb, Bool.or_eq_true, beq_iff_eq, not_or]
    constructor
    · rcases h1 with h | h <;> simp [h]
    · rcases h2 with h | h <;> simp [h]
  unfold processHostEscalations
  rw [foldl_push_eq isUrgentSummary mkEscalation ss [], hnil]
  simp

/-- Witness for C10 at a concrete input: a fallback-only summary list
yields no escalations. -/
theorem c10_fallback_never_escalates_witness :
    processHostEscalations
      [{ message_uuid := "M1", original_message := "hello",
         summary := getMockSummary ("hello") }] = [] :=
  c10_fallback_never_escalates.2
    [{ message_uuid := "M1", original_message := "hello",
       summary := getMockSummary ("hello") }]
    (by
      intro e he
      rcases List.mem_singleton.mp he with rfl
      exact ⟨("hello"), rfl⟩)

/-! Claim C8. -/

/-- C8: the Follow-up Evaluator emits exactly one reminder for a
`pending` task of the session older than 2 hours, none for a `pending`
task within the threshold (in particular one aged 1 hour), and none
for an `in-progress` task of any age.  The embedding
`evaluateTaskStatus` is a pure read over the store (it returns only
the reminder list), so it persists nothing.  The uniqueness hypothesis
says the task identity occurs once in `sandbox_tasks`. -/
theorem c8_followup_threshold (now : Int) (sid : String) (db : DB) (t : TaskRow)
    (hmem : t ∈ db.sandbox_tasks) (hsid : t.sandbox_session_id = sid)
    (huniq : db.sandbox_tasks.countP (fun x => x.task_uuid == t.task_uuid) = 1) :
    (t.status = "pending" → 7200000 < now - t.created_at →
       (evaluateTaskStatus now sid db).countP (fun r => r.task_uuid == t.task_uuid) = 1
       ∧ mkReminder now t ∈ evaluateTaskStatus now sid db)
    ∧ (t.status = "pending" → now - t.created_at ≤ 7200000 →
       (evaluateTaskStatus now sid db).countP (fun r => r.task_uuid == t.task_uuid) = 0)
    ∧ (t.status = "in-progress" →
       (evaluateTaskStatus now sid db).countP (fun r => r.task_uuid == t.task_uuid) = 0) := by
  have hrw : evaluateTaskStatus now sid db
      = ((List.insertionSort (fun a b => a.created_at ≤ b.created_at)
            (db.sandbox_tasks.filter (fun x =>
              x.sandbox_session_id == sid &&
              (x.status == ("pending") || x.status == ("in-progress"))))).filter
          (needsFollowUp now)).map (mkReminder now) := by
    unfold evaluateTaskStatus
    exact (foldl_push_eq (needsFollowUp now) (mkReminder now) _ []).trans (by simp)
  have hcount : (evaluateTaskStatus now sid db).countP (fun r => r.task_uuid == t.task_uuid)
      = if needsFollowUp now t &&
            (t.sandbox_session_id == sid &&
             (t.status == ("pending") || t.status == ("in-progress"))) then 1 else 0 := by
    rw [hrw, List.countP_map, List.countP_filter,
      ((List.perm_insertionSort _ _).countP_eq _), List.countP_filter]
    simp only [Bool.and_assoc]
    exact countP_and_of_countP_eq_one
      (fun a => (mkReminder now a).task_uuid == t.task_uuid)
      (fun a => needsFollowUp now a &&
        (a.sandbox_session_id == sid &&
         (a.status == ("pending") || a.status == ("in-progress"))))
      db.sandbox_tasks t hmem (by simp [mkReminder]) huniq
  refine ⟨?_, ?_, ?_⟩
  · intro hp hage
    have hneeds : needsFollowUp now t = true := by
      simp [needsFollowUp, hp, hage]
    refine ⟨by rw [hcount]; simp [hneeds, hsid, hp], ?_⟩
    rw [hrw]
    refine List.mem_map_of_mem (mkReminder now) (List.mem_filter.mpr ⟨?_, hneeds⟩)
    rw [((List.perm_insertionSort _ _).mem_iff)]
    exact List.mem_filter.mpr ⟨hmem, by simp [hsid, hp]⟩
  · intro hp hage
    have hneeds : needsFollowUp now t = false := by
      simp [needsFollowUp, not_lt.mpr hage]
    rw [hcount]
    simp [hneeds]
  · intro hst
    have hneeds : needsFollowUp now t = false := by
      simp [needsFollowUp, hst]
    rw [hcount]
    simp [hneeds]

/-- Fixture for the C8 witness: a pending task created at time 0. -/
def c8task : TaskRow :=
  { sandbox_session_id := "s"
    task_uuid := "T1"
    task_type := "maintenance"
    title := "Fix wifi"
    description := "wifi down"
    assignee_name := "Maintenance Team"
    assignee_role := "Maintenance Staff"
    status := "pending"
    priority := "medium"
    created_from_message_uuid := "M1"
    created_at := 0 }

/-- Witness for C8 at a concrete input: the pending task re-evaluated
3 hours after creation yields exactly one reminder. -/
theorem c8_followup_threshold_witness :
    (evaluateTaskStatus 10800000 ("s")
        { message_log := [], sandbox_ai_processing := [], sandbox_tasks := [c8task] }).countP
      (fun r => r.task_uuid == c8task.task_uuid) = 1
    ∧ mkReminder 10800000 c8task ∈
        evaluateTaskStatus 10800000 ("s")
          { message_log := [], sandbox_ai_processing := [], sandbox_tasks := [c8task] } :=
  (c8_followup_threshold 10800000 ("s")
      { message_log := [], sandbox_ai_processing := [], sandbox_tasks := [c8task] }
      c8task (by decide) (by decide) (by decide)).1 (by decide) (by decide)

/-! Claim C7. -/

/-- C7 (amended): the Responder loop has no per-summary error
handling — the whole loop sits in one `try ... finally` with no
`catch` — so a persistence failure on the first actionable summary
aborts the entire run: the error propagates with the store unchanged,
and no summary in the rest of the list is processed (no reply is
generated or persisted for any of them in that run). -/
theorem c7_failure_aborts (sid : String) (now : Int) (newUuid : Nat → String)
    (insertOk : Nat → Bool) (db : DB) (s1 : SummaryEntry) (rest : List SummaryEntry)
    (hact : s1.summary.actionRequired = true) (hfail : insertOk 0 = false) :
    buildAiResponseFromSummariesE sid now newUuid insertOk db (s1 :: rest)
      = Except.error (("persistence error"), db) := by
  unfold buildAiResponseFromSummariesE respondLoopE
  simp [hact, hfail]

/-- Fixture: an actionable maintenance summary entry. -/
def c7entry1 : SummaryEntry :=
  { message_uuid := "M1", original_message := "the wifi is broken",
    summary := getMockSummary ("the wifi is broken") }

/-- Fixture: an actionable cleaning summary entry. -/
def c7entry2 : SummaryEntry :=
  { message_uuid := "M2", original_message := "please clean the room",
    summary := getMockSummary ("please clean the room") }

/-- C7 counterexample: with two actionable summaries and a persistence
error on the first, the run returns an error whose store contains no
outbound message for the second (later) actionable summary — refuting
that one failure leaves subsequent summaries processed. -/
theorem c7_counterexample_abort :
    buildAiResponseFromSummariesE ("s") 0 (fun k => ("R") ++ toString k) (fun _ => false)
      emptyDB [c7entry1, c7entry2]
      = Except.error (("persistence error"), emptyDB)
    ∧ c7entry2.summary.actionRequired = true
    ∧ emptyDB.message_log.countP
        (fun r => r.generated_from == some c7entry2.message_uuid) = 0 := by
  refine ⟨rfl, by decide, rfl⟩

/-- Witness for C7 at a concrete input. -/
theorem c7_failure_aborts_witness :
    buildAiResponseFromSummariesE ("s") 5 (fun k => ("R") ++ toString k) (fun _ => false)
      emptyDB [c7entry1] = Except.error (("persistence error"), emptyDB) :=
  c7_failure_aborts ("s") 5 (fun k => ("R") ++ toString k) (fun _ => false) emptyDB
    c7entry1 [] (by decide) rfl

/-! Claim C5. -/

/-- Fixture: an inbound sandbox message from a concrete guest
number. -/
def c5msg : MessageRow :=
  { message_uuid := "M1", timestamp := 10, from_number := "+15551234567",
    to_number := "Host", message_body := "the wifi is broken", message_type := "Inbound",
    requestor_role := "guest", is_sandbox := true, sandbox_session_id := "s",
    generated_from := none }

/-- Fixture: a store holding just that inbound message. -/
def c5db : DB :=
  { message_log := [c5msg], sandbox_ai_processing := [], sandbox_tasks := [] }

/-- C5: evaluating the Responder on the summary of an actionable
inbound message from `+15551234567` shows the persisted outbound
message has sender `System` but recipient the literal `Guest` — not
the sender of the original inbound message — because
`summary.original_message` holds the body string, so its
`from_number` access falls back to `Guest`.  The `completed`
`response_generation` record keyed by the new outbound identity `R0`
is inserted as claimed. -/
theorem c5_outbound_recipient_eval :
    ((buildAiResponseFromSummaries ("s") 100 (fun k => ("R") ++ toString k)
        (processSummarizeMessages ("s") c5db).1
        (processSummarizeMessages ("s") c5db).2).1.message_log.filter
      (fun r => r.message_type == ("Outbound"))).map
        (fun r => (r.from_number, r.to_number, r.message_uuid))
      = [(("System"), ("Guest"), ("R0"))]
    ∧ mkRespRecord ("s") ("R0") ∈
        (buildAiResponseFromSummaries ("s") 100 (fun k => ("R") ++ toString k)
          (processSummarizeMessages ("s") c5db).1
          (processSummarizeMessages ("s") c5db).2).1.sandbox_ai_processing
    ∧ c5msg.from_number = "+15551234567"
    ∧ ("Guest" : String) ≠ "+15551234567" := by
  decide

/-! Claim C4. -/

/-- C4 (amended): for a session whose messages have timestamps
T1 < T2 < T3, the Summarizer processes and persists them in ascending
timestamp order, and the context built for the message at T3 contains
exactly the strictly earlier messages (T1 and T2, no later ones) —
but presented in descending timestamp order (most recent first):
`buildMessageContext` maps the descending fetch directly and performs
no reversal. -/
theorem c4_ordering_amended (sid : String) (m1 m2 m3 : MessageRow)
    (h12 : m1.timestamp < m2.timestamp) (h23 : m2.timestamp < m3.timestamp)
    (hs1 : m1.sandbox_session_id = sid) (hb1 : m1.is_sandbox = true)
    (ht1 : m1.message_type = "Inbound")
    (hs2 : m2.sandbox_session_id = sid) (hb2 : m2.is_sandbox = true)
    (ht2 : m2.message_type = "Inbound")
    (hs3 : m3.sandbox_session_id = sid) (hb3 : m3.is_sandbox = true)
    (ht3 : m3.message_type = "Inbound") :
    (processSummarizeMessages sid
        { message_log := [m1, m2, m3], sandbox_ai_processing := [], sandbox_tasks := [] }).2
      = [mkSummEntry m1, mkSummEntry m2, mkSummEntry m3]
    ∧ contextFor
        { message_log := [m1, m2, m3], sandbox_ai_processing := [], sandbox_tasks := [] }
        sid m3
      = [{ text := m2.message_body, type := m2.message_type, timestamp := m2.timestamp },
         { text := m1.message_body, type := m1.message_type, timestamp := m1.timestamp }] := by
  have h13 := lt_trans h12 h23
  constructor
  · rw [processSummarizeMessages_eq]
    have hW : unprocessedInbound
        { message_log := [m1, m2, m3], sandbox_ai_processing := [], sandbox_tasks := [] }
        sid = [m1, m2, m3] := by
      unfold unprocessedInbound
      have hfil : List.filter (fun m =>
          m.sandbox_session_id == sid && m.is_sandbox && m.message_type == ("Inbound") &&
          !(hasCompletedSummarization
              { message_log := [m1, m2, m3], sandbox_ai_processing := [], sandbox_tasks := [] }
              sid m.message_uuid)) [m1, m2, m3] = [m1, m2, m3] := by
        simp [hasCompletedSummarization, hs1, hb1, ht1, hs2, hb2, ht2, hs3, hb3, ht3]
      rw [hfil]
      simp [List.insertionSort, List.orderedInsert, le_of_lt h12, le_of_lt h23, le_of_lt h13]
    rw [hW]
    simp
  · unfold contextFor historyQuery
    have hfil : List.filter (fun m =>
        m.sandbox_session_id == sid && m.timestamp < m3.timestamp) [m1, m2, m3]
        = [m1, m2] := by
      simp [hs1, hs2, hs3, h13, h23, lt_irrefl]
    rw [hfil]
    have hsort : List.insertionSort (fun a b : MessageRow => b.timestamp ≤ a.timestamp)
        [m1, m2] = [m2, m1] := by
      simp [List.insertionSort, List.orderedInsert, not_le.mpr h12]
    rw [hsort]
    simp [buildMessageContext]

/-- Fixture: inbound message at timestamp 1. -/
def c4m1 : MessageRow :=
  { message_uuid := "A", timestamp := 1, from_number := "+1", to_number := "H",
    message_body := "b1", message_type := "Inbound", requestor_role := "guest",
    is_sandbox := true, sandbox_session_id := "s", generated_from := none }

/-- Fixture: inbound message at timestamp 2. -/
def c4m2 : MessageRow :=
  { message_uuid := "B", timestamp := 2, from_number := "+1", to_number := "H",
    message_body := "b2", message_type := "Inbound", requestor_role := "guest",
    is_sandbox := true, sandbox_session_id := "s", generated_from := none }

/-- Fixture: inbound message at timestamp 3. -/
def c4m3 : MessageRow :=
  { message_uuid := "C", timestamp := 3, from_number := "+1", to_number := "H",
    message_body := "b3", message_type := "Inbound", requestor_role := "guest",
    is_sandbox := true, sandbox_session_id := "s", generated_from := none }

/-- Fixture: a session store with the three messages. -/
def c4db : DB :=
  { message_log := [c4m1, c4m2, c4m3], sandbox_ai_processing := [], sandbox_tasks := [] }

/-- C4 counterexample: the context built for the message at T3 = 3
presents the earlier messages as [T2, T1] — descending, not the
chronological [T1, T2] the claim describes: the code never reverses
the descending fetch. -/
theorem c4_counterexample_history_not_chronological :
    (contextFor c4db ("s") c4m3).map (fun h => h.timestamp) = [2, 1]
    ∧ (contextFor c4db ("s") c4m3).map (fun h => h.timestamp) ≠ [1, 2] := by
  decide

/-- Witness for C4 at the concrete three-message session. -/
theorem c4_ordering_amended_witness :
    (processSummarizeMessages ("s") c4db).2
      = [mkSummEntry c4m1, mkSummEntry c4m2, mkSummEntry c4m3]
    ∧ contextFor c4db ("s") c4m3
      = [{ text := c4m2.message_body, type := c4m2.message_type, timestamp := c4m2.timestamp },
         { text := c4m1.message_body, type := c4m1.message_type, timestamp := c4m1.timestamp }] :=
  c4_ordering_amended ("s") c4m1 c4m2 c4m3 (by decide) (by decide)
    rfl rfl rfl rfl rfl rfl rfl rfl rfl

/-! Claim C2. -/

/-- With no completed summarization record for the key, the skip test
is false. -/
lemma hasCompletedSummarization_eq_false (db : DB) (sid u : String)
    (h0 : summarizationCount db sid u = 0) :
    hasCompletedSummarization db sid u = false := by
  unfold hasCompletedSummarization
  rw [List.any_eq_false]
  intro r hr
  have := List.countP_eq_zero.mp h0 r hr
  simpa using this

/-- With a completed summarization record present, the skip test is
true. -/
lemma hasCompletedSummarization_eq_true (db : DB) (sid u : String)
    (h : 0 < summarizationCount db sid u) :
    hasCompletedSummarization db sid u = true := by
  unfold hasCompletedSummarization
  rw [List.any_eq_true]
  rcases List.countP_pos_iff.mp h with ⟨r, hr, hp⟩
  exact ⟨r, hr, hp⟩

/-- Occurrences of a unique message identity in the summarize work
set: one when the message passes the work-set query, zero
otherwise. -/
lemma unprocessedInbound_countP_uuid (db : DB) (sid : String) (m : MessageRow)
    (hmem : m ∈ db.message_log)
    (huniq : db.message_log.countP (fun x => x.message_uuid == m.message_uuid) = 1) :
    (unprocessedInbound db sid).countP (fun x => x.message_uuid == m.message_uuid)
      = if m.sandbox_session_id == sid && m.is_sandbox && m.message_type == ("Inbound") &&
            !(hasCompletedSummarization db sid m.message_uuid) then 1 else 0 := by
  unfold unprocessedInbound
  rw [((List.perm_insertionSort _ _).countP_eq _), List.countP_filter]
  exact countP_and_of_countP_eq_one _ _ db.message_log m hmem (by simp) huniq

/-- One summarize run adds one completed summarization record per
work-set occurrence of the identity, and removes nothing. -/
lemma summarizationCount_after_run (sid : String) (db : DB) (u : String) :
    summarizationCount (processSummarizeMessages sid db).1 sid u
      = summarizationCount db sid u
        + (unprocessedInbound db sid).countP (fun x => x.message_uuid == u) := by
  rw [processSummarizeMessages_eq]
  unfold summarizationCount
  rw [List.countP_append]
  congr 1
  rw [List.countP_map]
  apply List.countP_congr
  intro x hx
  simp [mkSummRecord]

/-- The summaries a run emits carry exactly the work-set
identities. -/
lemma emitted_countP_uuid (sid : String) (db : DB) (u : String) :
    (processSummarizeMessages sid db).2.countP (fun e => e.message_uuid == u)
      = (unprocessedInbound db sid).countP (fun x => x.message_uuid == u) := by
  rw [processSummarizeMessages_eq]
  rw [List.countP_map]
  apply List.countP_congr
  intro x hx
  simp [mkSummEntry]

/-- A summarize run never touches `message_log`. -/
lemma message_log_after_run (sid : String) (db : DB) :
    (processSummarizeMessages sid db).1.message_log = db.message_log := by
  rw [processSummarizeMessages_eq]

/-- C2: running the summarization stage twice over the same store
yields exactly one completed summarization record for an inbound
sandbox message of the session that starts unprocessed; the first run
emits its summary exactly once and the second run emits no summary for
it (the completed record excludes it from the second work set). -/
theorem c2_summarize_idempotent (sid : String) (db : DB) (m : MessageRow)
    (hmem : m ∈ db.message_log) (hsid : m.sandbox_session_id = sid)
    (hsb : m.is_sandbox = true) (hty : m.message_type = "Inbound")
    (h0 : summarizationCount db sid m.message_uuid = 0)
    (huniq : db.message_log.countP (fun x => x.message_uuid == m.message_uuid) = 1) :
    summarizationCount
        (processSummarizeMessages sid (processSummarizeMessages sid db).1).1
        sid m.message_uuid = 1
    ∧ (processSummarizeMessages sid db).2.countP
        (fun e => e.message_uuid == m.message_uuid) = 1
    ∧ (processSummarizeMessages sid (processSummarizeMessages sid db).1).2.countP
        (fun e => e.message_uuid == m.message_uuid) = 0 := by
  have hdone0 : hasCompletedSummarization db sid m.message_uuid = false :=
    hasCompletedSummarization_eq_false db sid _ h0
  have hWcount : (unprocessedInbound db sid).countP
      (fun x => x.message_uuid == m.message_uuid) = 1 := by
    rw [unprocessedInbound_countP_uuid db sid m hmem huniq]
    simp [hsid, hsb, hty, hdone0]
  have hcnt1 : summarizationCount (processSummarizeMessages sid db).1 sid m.message_uuid = 1 := by
    rw [summarizationCount_after_run, h0, hWcount]
  have hml1 := message_log_after_run sid db
  have hdone1 : hasCompletedSummarization (processSummarizeMessages sid db).1 sid
      m.message_uuid = true :=
    hasCompletedSummarization_eq_true _ _ _ (by rw [hcnt1]; norm_num)
  have hW2count : (unprocessedInbound (processSummarizeMessages sid db).1 sid).countP
      (fun x => x.message_uuid == m.message_uuid) = 0 := by
    rw [unprocessedInbound_countP_uuid _ sid m (by rw [hml1]; exact hmem)
      (by rw [hml1]; exact huniq)]
    simp [hdone1]
  refine ⟨?_, ?_, ?_⟩
  · rw [summarizationCount_after_run, hcnt1, hW2count]
  · rw [emitted_countP_uuid, hWcount]
  · rw [emitted_countP_uuid, hW2count]

/-- Fixture: one inbound sandbox message. -/
def c2msg : MessageRow :=
  { message_uuid := "M1", timestamp := 0, from_number := "+1", to_number := "H",
    message_body := "hello", message_type := "Inbound", requestor_role := "guest",
    is_sandbox := true, sandbox_session_id := "s", generated_from := none }

/-- Fixture: store with that one unprocessed message. -/
def c2db : DB :=
  { message_log := [c2msg], sandbox_ai_processing := [], sandbox_tasks := [] }

/-- Witness for C2 at a concrete input: two summarize runs over a
one-message session. -/
theorem c2_summarize_idempotent_witness :
    summarizationCount
        (processSummarizeMessages ("s") (processSummarizeMessages ("s") c2db).1).1
        ("s") c2msg.message_uuid = 1
    ∧ (processSummarizeMessages ("s") c2db).2.countP
        (fun e => e.message_uuid == c2msg.message_uuid) = 1
    ∧ (processSummarizeMessages ("s") (processSummarizeMessages ("s") c2db).1).2.countP
        (fun e => e.message_uuid == c2msg.message_uuid) = 0 :=
  c2_summarize_idempotent ("s") c2db c2msg (by decide) rfl rfl rfl rfl rfl

end Ramblaa
